import Mathlib

/-!
Verification development for the deerlog Play-Store lookup service
(`src/app.py`, `src/config.py`).

The interactive handler and the scheduled job are embedded shallowly: the
external lookup library (`google_play_scraper.search` / `app`) is a parameter
(a record of fallible functions), exceptions are `Except.error`, and the CSV
installs log is threaded as an explicit list of rows.  The best-match
selector described by the design document is not present in the `src/`
revision (which requests `n_hits=1` and takes `results[0]`); its scoring and
scanning rules are modelled from the specification text and marked as such.
-/

namespace Deerlog

/-! ## Best-match selector (modelled from the specification) -/

/-- Case-insensitive normalisation of a title or query: Python's `.lower()`
on the character list of the string. -/
def lower (s : List Char) : List Char := s.map Char.toLower

/-- Modelled from the spec: the Best-Match Selector's scoring rule (§4.1),
which is absent from the `src/` revision (there `get_app_info` requests
`n_hits=1` and uses `results[0]` directly).  Comparison is case-insensitive:
an exact match scores 100, a query occurring inside the title scores
`80 + (len(Q)/len(T))·10`, anything else scores 0. -/
def scoring (q t : List Char) : ℚ :=
  if lower q = lower t then 100
  else if lower q <:+: lower t then 80 + (q.length : ℚ) / (t.length : ℚ) * 10
  else 0

/-- One search-result entry as the Selector sees it: a title and the opaque
store identifier. -/
structure Candidate where
  title : List Char
  appId : String
deriving DecidableEq

/-- Modelled from the spec: the Selector's scan (§4.1), absent from the
`src/` revision.  It walks the candidates in the order given, skipping
entries with an empty title, and replaces the current best only when a
candidate's score strictly exceeds the best score so far; the accumulator
starts at the sentinel `-1`. -/
def scanBest (q : List Char) : List Candidate → Option Candidate × ℚ → Option Candidate × ℚ
  | [], acc => acc
  | c :: rest, acc =>
    if c.title = [] then scanBest q rest acc
    else if acc.2 < scoring q c.title then scanBest q rest (some c, scoring q c.title)
    else scanBest q rest acc

/-- Modelled from the spec: the Selector (§4.1).  If the scan found a scored
candidate it is returned; otherwise (every title empty, or no candidates at
all) the first candidate of the input is the fallback, and only an empty
input yields `none`. -/
def selectBest (q : List Char) (cands : List Candidate) : Option Candidate :=
  match (scanBest q cands (none, -1)).1 with
  | some c => some c
  | none => cands.head?

/-! ## The `src/` revision: `get_app_info`, logging, route, scheduler -/

/-- One entry of the list returned by `google_play_scraper.search`; the code
reads only `appId`, but title and developer are present in the data. -/
structure SearchEntry where
  appId : String
  entryTitle : String
  entryDev : String
deriving DecidableEq

/-- The detail record returned by `google_play_scraper.app`, with every field
optional (`dict.get` with a default is used per field in the code). -/
structure AppDetails where
  title : Option String := none
  icon : Option String := none
  developer : Option String := none
  score : Option ℚ := none
  ratings : Option Nat := none
  installs : Option String := none
  realInstalls : Option Nat := none
  price : Option String := none
  free : Option Bool := none
  description : Option String := none
  genre : Option String := none
  version : Option String := none
  updated : Option Nat := none
  size : Option String := none
  contentRating : Option String := none
deriving DecidableEq

/-- The external lookup library as a record of fallible functions:
`Except.error` models a raised exception, and `.ok none` from the detail
fetch models a falsy (empty) response, which the code tests with
`if not app_details`. -/
structure Client where
  search : String → Except String (List SearchEntry)
  fetchDetails : String → Except String (Option AppDetails)

/-- The `app` object of a successful response (lines 103–124 of
`src/app.py`), built field by field with the defaults used there. -/
structure AppPayload where
  title : String
  appId : String
  url : String
  icon : String
  developer : String
  score : ℚ
  ratings : Nat
  installs : String
  realInstalls : Nat
  price : String
  free : Bool
  description : String
  genre : String
  version : String
  updated : Option Nat
  size : String
  contentRating : String
deriving DecidableEq

/-- The JSON object every handler path returns: a success flag, an error
message when failing, optional exception details (present only in debug
mode), and the `app` payload on success. -/
structure Response where
  success : Bool
  error : Option String
  details : Option String
  app : Option AppPayload
deriving DecidableEq

/-- One data row of `installs_log.csv`, as written by `log_installs`:
timestamp, the query text, and the four `dict.get` values (a `none` is the
`'N/A'` default the code supplies). -/
structure LogRow where
  timestamp : String
  app_name : String
  installs : Option String
  real_installs : Option Nat
  score : Option ℚ
  ratings : Option Nat
deriving DecidableEq

/-- A call made to the external lookup library, recorded for the embedding. -/
inductive Call where
  | searchCall (query : String)
  | detailsCall (appId : String)
deriving DecidableEq

def Call.isSearch : Call → Bool
  | .searchCall _ => true
  | .detailsCall _ => false

def errNotFound : String := "App not found on Google Play Store"
def errNoDetails : String := "Could not fetch app details"
def errFetch : String := "Failed to fetch app data"
def errUnexpected : String := "An unexpected error occurred"
def errNameRequired : String := "App name is required"
def errNameEmpty : String := "App name cannot be empty"
def storeUrlBase : String := "https://play.google.com/store/apps/details?id="

/-- `log_installs` (lines 48–70): appends one row to the installs CSV; the
whole body sits in `try/except Exception`, so a failing write (modelled by
`writeOk = false`) is swallowed and leaves the log unchanged — the function
itself never raises. -/
def log_installs (writeOk : Bool) (now app_name : String) (d : AppDetails)
    (log : List LogRow) : List LogRow :=
  if writeOk then
    log ++ [{ timestamp := now, app_name := app_name, installs := d.installs,
              real_installs := d.realInstalls, score := d.score,
              ratings := d.ratings }]
  else log

/-- The uniform failure object of the outer `except` of `get_app_info`
(lines 126–133): `details` is the exception text only in debug mode. -/
def fetchFailure (debug : Bool) (e : String) : Response :=
  { success := false, error := some errFetch,
    details := if debug then some e else none, app := none }

/-- The success `app` payload (lines 103–124). -/
def mkPayload (app_id : String) (d : AppDetails) : AppPayload :=
  { title := d.title.getD (""), appId := app_id,
    url := storeUrlBase ++ app_id, icon := d.icon.getD (""),
    developer := d.developer.getD (""), score := d.score.getD 0,
    ratings := d.ratings.getD 0, installs := d.installs.getD (""),
    realInstalls := d.realInstalls.getD 0, price := d.price.getD ("Free"),
    free := d.free.getD true, description := d.description.getD (""),
    genre := d.genre.getD (""), version := d.version.getD (""),
    updated := d.updated, size := d.size.getD (""),
    contentRating := d.contentRating.getD ("") }

/-- The value and effects of one `get_app_info` call: the response, the new
installs log, and the lookup-library calls that were made. -/
structure GetResult where
  resp : Response
  log : List LogRow
  calls : List Call
deriving DecidableEq

/-- `get_app_info` (lines 72–133): search; empty result → not-found failure;
otherwise take `results[0]['appId']`, fetch details; falsy details → detail
failure; otherwise log the installs row and return the success payload.  Any
exception from either library call is caught by the enclosing
`except Exception` and becomes `fetchFailure`. -/
def get_app_info (debug : Bool) (client : Client) (writeOk : Bool)
    (now app_name : String) (log : List LogRow) : GetResult :=
  match client.search app_name with
  | .error e => ⟨fetchFailure debug e, log, [.searchCall app_name]⟩
  | .ok [] =>
      ⟨{ success := false, error := some errNotFound, details := none,
         app := none }, log, [.searchCall app_name]⟩
  | .ok (r :: _) =>
      match client.fetchDetails r.appId with
      | .error e =>
          ⟨fetchFailure debug e, log,
           [.searchCall app_name, .detailsCall r.appId]⟩
      | .ok none =>
          ⟨{ success := false, error := some errNoDetails, details := none,
             app := none }, log,
           [.searchCall app_name, .detailsCall r.appId]⟩
      | .ok (some d) =>
          ⟨{ success := true, error := none, details := none,
             app := some (mkPayload r.appId d) },
           log_installs writeOk now app_name d log,
           [.searchCall app_name, .detailsCall r.appId]⟩

/-- The parsed request body as `request.get_json()` yields it: an exception
(malformed body), `none` (no JSON object), a JSON object without the
`app_name` key, or the `app_name` value. -/
abbrev ReqBody : Type := Except String (Option (Option String))

/-- Python's `str.strip()`: drop whitespace from both ends. -/
def pyStrip (s : String) : String :=
  ⟨((s.toList.dropWhile Char.isWhitespace).reverse.dropWhile
      Char.isWhitespace).reverse⟩

/-- The route's outcome: the JSON body, the HTTP status, the new installs
log, and the lookup calls made. -/
structure RouteResult where
  resp : Response
  status : Nat
  log : List LogRow
  calls : List Call
deriving DecidableEq

/-- `search_app`, the `/search` route (lines 148–176): reject a missing body
or missing `app_name` with 400, strip the name and reject an empty result
with 400, otherwise delegate to `get_app_info`; any exception inside the
route (e.g. from parsing the body) is caught by the outer `except` and
becomes a 500 with the uniform shape. -/
def search_app (debug : Bool) (client : Client) (writeOk : Bool)
    (now : String) (req : ReqBody) (log : List LogRow) : RouteResult :=
  match req with
  | .error e =>
      ⟨{ success := false, error := some errUnexpected,
         details := if debug then some e else none, app := none },
       500, log, []⟩
  | .ok none =>
      ⟨{ success := false, error := some errNameRequired, details := none,
         app := none }, 400, log, []⟩
  | .ok (some none) =>
      ⟨{ success := false, error := some errNameRequired, details := none,
         app := none }, 400, log, []⟩
  | .ok (some (some raw)) =>
      let app_name := pyStrip raw
      if app_name = "" then
        ⟨{ success := false, error := some errNameEmpty, details := none,
           app := none }, 400, log, []⟩
      else
        let r := get_app_info debug client writeOk now app_name log
        ⟨r.resp, 200, r.log, r.calls⟩

/-! ## Scheduled job -/

/-- The two states of one scheduled firing; the `finally` block of
`scheduled_search` is what brings a firing back to `Idle`. -/
inductive JobState where
  | Firing
  | Idle
deriving DecidableEq

def deerwalkQuery : String := "Deerwalk"
def msgSchedStart : String := "Running scheduled search for 'Deerwalk'"
def msgSchedErr : String := "Error in scheduled search: "
def msgSchedOk : String := "Successfully fetched data for: "
def msgNextRun : String := "Next scheduled search at: "
def msgUnknownErr : String := "Unknown error"
def msgUnknownApp : String := "Unknown App"

/-- The outcome of one firing of the scheduled job: installs-log rows,
lookup calls, application-log lines, and the job state after the firing. -/
structure JobResult where
  log : List LogRow
  calls : List Call
  messages : List String
  state : JobState
deriving DecidableEq

/-- `scheduled_search` (lines 370–403): one firing calls `get_app_info` for
the fixed query `'Deerwalk'`; a failed result is logged and the function
returns; a success logs the stats; any exception is caught by the
`except Exception`; the `finally` block always logs the next run time, so
every path ends with the job back in `Idle`. -/
def scheduled_search (debug : Bool) (client : Client) (writeOk : Bool)
    (now nextRun : String) (log : List LogRow) : JobResult :=
  let r := get_app_info debug client writeOk now deerwalkQuery log
  if r.resp.success then
    { log := r.log, calls := r.calls,
      messages :=
        [msgSchedStart,
         msgSchedOk ++ ((r.resp.app.map AppPayload.title).getD msgUnknownApp),
         msgNextRun ++ nextRun],
      state := .Idle }
  else
    { log := r.log, calls := r.calls,
      messages :=
        [msgSchedStart,
         msgSchedErr ++ (r.resp.error.getD msgUnknownErr),
         msgNextRun ++ nextRun],
      state := .Idle }

/-- A trigger specification for the scheduler library. -/
inductive Trigger where
  | intervalTrigger (hours : Nat)
  | cronTrigger (hour minute : Nat) (timezone : Option String)
deriving DecidableEq

/-- Written from the spec's words, for comparison with the source's
configuration: a cron-style trigger fires at fixed, timezone-aware
wall-clock times of day. -/
def Trigger.isCronStyle : Trigger → Bool
  | .cronTrigger _ _ _ => true
  | .intervalTrigger _ => false

/-- The registration handed to `scheduler.add_job`. -/
structure ScheduledJob where
  jobId : String
  jobName : String
  trigger : Trigger
  replaceExisting : Bool
deriving DecidableEq

/-- The one job registered at import time (lines 405–412):
`IntervalTrigger(hours=2)` running `scheduled_search`. -/
def deerwalk_search_job : ScheduledJob :=
  { jobId := "deerwalk_search", jobName := "Scheduled search for Deerwalk",
    trigger := .intervalTrigger 2, replaceExisting := true }

/-! ## Concrete fixtures for witnesses and counterexamples -/

def t0 : String := "2025-01-01T00:00:00"
def errTimeout : String := "timeout"
def blankName : String := "   "

def demoEntry : SearchEntry :=
  { appId := "com.deerwalk", entryTitle := "Deerwalk",
    entryDev := "Deerwalk Services" }

def demoDetails : AppDetails :=
  { title := some ("Deerwalk"), developer := some ("Deerwalk Services"),
    score := some 4, ratings := some 50, installs := some ("1,000+"),
    realInstalls := some 1234 }

/-- A client whose search succeeds with no candidates. -/
def emptyClient : Client :=
  { search := fun _ => .ok [], fetchDetails := fun _ => .error errTimeout }

/-- A client whose search finds one candidate and whose detail fetch raises. -/
def failDetailsClient : Client :=
  { search := fun _ => .ok [demoEntry],
    fetchDetails := fun _ => .error errTimeout }

/-- A fully successful client. -/
def demoClient : Client :=
  { search := fun _ => .ok [demoEntry],
    fetchDetails := fun _ => .ok (some demoDetails) }

/-- The well-shapedness every handler result satisfies: either a success
carrying an `app` payload and no error, or a failure carrying an error
message and no payload. -/
def wellShaped (r : Response) : Prop :=
  (r.success = true ∧ r.app.isSome = true ∧ r.error = none) ∨
  (r.success = false ∧ r.error.isSome = true ∧ r.app = none)

/-! ## Scoring lemmas and C1 -/

theorem lower_length (s : List Char) : (lower s).length = s.length :=
  List.length_map _ _

theorem scoring_nonneg (q t : List Char) : 0 ≤ scoring q t := by
  unfold scoring
  split
  · norm_num
  · split
    · have h0 : (0 : ℚ) ≤ (q.length : ℚ) / (t.length : ℚ) :=
        div_nonneg (Nat.cast_nonneg _) (Nat.cast_nonneg _)
      nlinarith
    · exact le_refl 0

theorem scoring_of_eq (q t : List Char) (h : lower q = lower t) :
    scoring q t = 100 := by
  unfold scoring
  simp [h]

theorem scoring_of_sub (q t : List Char) (hne : lower q ≠ lower t)
    (hsub : lower q <:+: lower t) :
    scoring q t = 80 + (q.length : ℚ) / (t.length : ℚ) * 10 := by
  unfold scoring
  simp [hne, hsub]

theorem scoring_of_none (q t : List Char) (hsub : ¬ lower q <:+: lower t) :
    scoring q t = 0 := by
  have hne : lower q ≠ lower t := fun h => hsub (h ▸ List.infix_refl _)
  unfold scoring
  simp [hne, hsub]

/-- In the substring branch the query is strictly shorter than the title. -/
theorem sub_length_lt (q t : List Char) (hq : q ≠ [])
    (hne : lower q ≠ lower t) (hsub : lower q <:+: lower t) :
    0 < q.length ∧ q.length < t.length := by
  have hle : q.length ≤ t.length := by
    have := hsub.length_le
    rwa [lower_length, lower_length] at this
  have hqpos : 0 < q.length := List.length_pos.mpr hq
  refine ⟨hqpos, lt_of_le_of_ne hle ?_⟩
  intro hlen
  exact hne (hsub.eq_of_length (by rw [lower_length, lower_length, hlen]))

theorem sub_ratio_bounds (q t : List Char) (hq : q ≠ [])
    (hne : lower q ≠ lower t) (hsub : lower q <:+: lower t) :
    0 < (q.length : ℚ) / (t.length : ℚ) ∧ (q.length : ℚ) / (t.length : ℚ) < 1 := by
  obtain ⟨hqpos, hlt⟩ := sub_length_lt q t hq hne hsub
  have htpos : (0 : ℚ) < (t.length : ℚ) := by
    exact_mod_cast lt_trans hqpos hlt
  constructor
  · exact div_pos (by exact_mod_cast hqpos) htpos
  · rw [div_lt_one htpos]
    exact_mod_cast hlt

/-- **C1**: the Selector's scoring function, compared case-insensitively,
returns 100 on an exact match; on a non-empty proper substring match it
returns `80 + (len(Q)/len(T))·10`, which lies in `[80, 90)` and is strictly
increasing in the ratio `len(Q)/len(T)`; and it returns 0 when the query does
not occur in the title. -/
theorem C1_scoring_cases (q t : List Char) :
    (lower q = lower t → scoring q t = 100) ∧
    (q ≠ [] → lower q ≠ lower t → lower q <:+: lower t →
      scoring q t = 80 + (q.length : ℚ) / (t.length : ℚ) * 10 ∧
      80 ≤ scoring q t ∧ scoring q t < 90) ∧
    (¬ lower q <:+: lower t → scoring q t = 0) ∧
    (∀ q₂ t₂ : List Char, q ≠ [] → lower q ≠ lower t → lower q <:+: lower t →
      q₂ ≠ [] → lower q₂ ≠ lower t₂ → lower q₂ <:+: lower t₂ →
      (q.length : ℚ) / (t.length : ℚ) < (q₂.length : ℚ) / (t₂.length : ℚ) →
      scoring q t < scoring q₂ t₂) := by
  refine ⟨scoring_of_eq q t, ?_, scoring_of_none q t, ?_⟩
  · intro hq hne hsub
    obtain ⟨hr0, hr1⟩ := sub_ratio_bounds q t hq hne hsub
    rw [scoring_of_sub q t hne hsub]
    refine ⟨rfl, by nlinarith, by nlinarith⟩
  · intro q₂ t₂ _ hne hsub _ hne₂ hsub₂ hratio
    rw [scoring_of_sub q t hne hsub, scoring_of_sub q₂ t₂ hne₂ hsub₂]
    nlinarith

/-- Witness for C1 on the spec's own example: query `deer` against title
`Deerwalk` scores `80 + (4/8)·10 = 85`. -/
theorem C1_scoring_witness :
    scoring ("deer".toList) ("Deerwalk".toList) = 85 ∧
    80 ≤ scoring ("deer".toList) ("Deerwalk".toList) ∧
    scoring ("deer".toList) ("Deerwalk".toList) < 90 := by
  have h := (C1_scoring_cases ("deer".toList) ("Deerwalk".toList)).2.1
    (by decide) (by decide) (by decide)
  exact ⟨h.1.trans (by norm_num), h.2⟩

/-! ## Selector scan lemmas and C2 -/

theorem scanBest_of_le (q : List Char) (l : List Candidate)
    (acc : Option Candidate × ℚ)
    (h : ∀ d ∈ l, d.title ≠ [] → scoring q d.title ≤ acc.2) :
    scanBest q l acc = acc := by
  induction l with
  | nil => rfl
  | cons c rest ih =>
    rw [scanBest]
    by_cases hc : c.title = []
    · rw [if_pos hc]
      exact ih fun d hd => h d (List.mem_cons_of_mem _ hd)
    · rw [if_neg hc, if_neg (not_lt.mpr (h c (List.mem_cons_self _ _) hc))]
      exact ih fun d hd => h d (List.mem_cons_of_mem _ hd)

theorem scanBest_through (q : List Char) (c : Candidate) (l₂ : List Candidate)
    (hc : c.title ≠ []) :
    ∀ (l₁ : List Candidate) (acc : Option Candidate × ℚ),
      acc.2 < scoring q c.title →
      (∀ d ∈ l₁, d.title ≠ [] → scoring q d.title < scoring q c.title) →
      scanBest q (l₁ ++ c :: l₂) acc = scanBest q l₂ (some c, scoring q c.title) := by
  intro l₁
  induction l₁ with
  | nil =>
    intro acc hacc _
    rw [List.nil_append, scanBest, if_neg hc, if_pos hacc]
  | cons d l₁ ih =>
    intro acc hacc h₁
    rw [List.cons_append, scanBest]
    by_cases hd : d.title = []
    · rw [if_pos hd]
      exact ih acc hacc fun e he => h₁ e (List.mem_cons_of_mem _ he)
    · have hdc : scoring q d.title < scoring q c.title :=
        h₁ d (List.mem_cons_self _ _) hd
      by_cases hgt : acc.2 < scoring q d.title
      · rw [if_neg hd, if_pos hgt]
        exact ih _ hdc fun e he => h₁ e (List.mem_cons_of_mem _ he)
      · rw [if_neg hd, if_neg hgt]
        exact ih acc hacc fun e he => h₁ e (List.mem_cons_of_mem _ he)

/-- **C2**: the Selector scans candidates in the order given and replaces the
current best only on a strictly greater score, so the earliest candidate
attaining the maximal score is returned; a later candidate whose score merely
equals it never replaces it. -/
theorem C2_selector_earliest_max (q : List Char) (l₁ l₂ : List Candidate)
    (c : Candidate) (hc : c.title ≠ [])
    (h₁ : ∀ d ∈ l₁, d.title ≠ [] → scoring q d.title < scoring q c.title)
    (h₂ : ∀ d ∈ l₂, d.title ≠ [] → scoring q d.title ≤ scoring q c.title) :
    selectBest q (l₁ ++ c :: l₂) = some c := by
  have hstart : (-1 : ℚ) < scoring q c.title :=
    lt_of_lt_of_le (by norm_num) (scoring_nonneg q c.title)
  have hscan : scanBest q (l₁ ++ c :: l₂) (none, -1) = (some c, scoring q c.title) := by
    rw [scanBest_through q c l₂ hc l₁ (none, -1) hstart h₁]
    exact scanBest_of_le q l₂ _ h₂
  rw [selectBest, hscan]

/-- Witness for C2: with query `deer`, the candidates `deerwalk` and
`walkdeer` both score 85; the Selector keeps the earlier one. -/
theorem C2_selector_witness :
    selectBest ("deer".toList)
      [⟨"deerwalk".toList, "id.first"⟩, ⟨"walkdeer".toList, "id.second"⟩] =
      some ⟨"deerwalk".toList, "id.first"⟩ := by
  have h := C2_selector_earliest_max ("deer".toList) []
    [⟨"walkdeer".toList, "id.second"⟩] ⟨"deerwalk".toList, "id.first"⟩
    (by decide) (by intro d hd; cases hd) ?_
  · exact h
  · intro d hd hdt
    have hde : d = ⟨"walkdeer".toList, "id.second"⟩ := by
      cases hd with
      | head => rfl
      | tail _ h2 => cases h2
    subst hde
    rw [scoring, if_neg (by decide), if_pos (by decide),
      scoring, if_neg (by decide), if_pos (by decide)]
    norm_num

/-! ## Handler lemmas and C3–C6 -/

/-- **C3** (amended): when the search raises or returns zero candidates,
`get_app_info` returns the uniform failure object — success flag false, a
human-readable error message, no `app` payload (so no echoed title and no
nulled numeric fields) — and appends nothing to the installs log. -/
theorem C3_search_failure_shape (debug : Bool) (client : Client)
    (writeOk : Bool) (now app_name : String) (log : List LogRow) :
    (client.search app_name = .ok [] →
      get_app_info debug client writeOk now app_name log =
        ⟨{ success := false, error := some errNotFound, details := none,
           app := none }, log, [.searchCall app_name]⟩) ∧
    (∀ e, client.search app_name = .error e →
      get_app_info debug client writeOk now app_name log =
        ⟨fetchFailure debug e, log, [.searchCall app_name]⟩) := by
  constructor
  · intro h
    simp [get_app_info, h]
  · intro e h
    simp [get_app_info, h]

/-- Counterexample to C3 as stated: on a search with zero candidates the
response carries no `app` object at all — there is no displayed title equal
to the query and no `installs`/`realInstalls`/`score`/`ratings` fields. -/
theorem C3_counterexample :
    (get_app_info true emptyClient true t0 deerwalkQuery []).resp =
      { success := false, error := some errNotFound, details := none,
        app := none } ∧
    (get_app_info true emptyClient true t0 deerwalkQuery []).resp.app =
      none :=
  ⟨rfl, rfl⟩

/-- Witness for C3 (amended) at a concrete client returning no candidates. -/
theorem C3_witness :
    get_app_info true emptyClient true t0 deerwalkQuery [] =
      ⟨{ success := false, error := some errNotFound, details := none,
         app := none }, [], [.searchCall deerwalkQuery]⟩ :=
  (C3_search_failure_shape true emptyClient true t0 deerwalkQuery []).1 rfl

/-- **C4** (amended): when the search succeeded with a candidate but the
detail fetch raises (or returns a falsy record), `get_app_info` returns the
uniform failure object with no `app` payload: the candidate's title and
developer from the search step are *not* preserved in the response. -/
theorem C4_detail_failure_shape (debug : Bool) (client : Client)
    (writeOk : Bool) (now app_name : String) (log : List LogRow)
    (r : SearchEntry) (rest : List SearchEntry)
    (hs : client.search app_name = .ok (r :: rest)) :
    (∀ e, client.fetchDetails r.appId = .error e →
      get_app_info debug client writeOk now app_name log =
        ⟨fetchFailure debug e, log,
         [.searchCall app_name, .detailsCall r.appId]⟩) ∧
    (client.fetchDetails r.appId = .ok none →
      get_app_info debug client writeOk now app_name log =
        ⟨{ success := false, error := some errNoDetails, details := none,
           app := none }, log,
         [.searchCall app_name, .detailsCall r.appId]⟩) := by
  constructor
  · intro e h
    simp [get_app_info, hs, h]
  · intro h
    simp [get_app_info, hs, h]

/-- Counterexample to C4 as stated: the search found the candidate
`Deerwalk` (title and developer known), the detail fetch raised, and the
response contains no `app` object — nothing of the candidate is preserved. -/
theorem C4_counterexample :
    (get_app_info true failDetailsClient true t0 deerwalkQuery []).resp =
      { success := false, error := some errFetch, details := some errTimeout,
        app := none } ∧
    (get_app_info true failDetailsClient true t0 deerwalkQuery []).resp.app =
      none :=
  ⟨rfl, rfl⟩

/-- Witness for C4 (amended) at a concrete client whose detail fetch
raises. -/
theorem C4_witness :
    get_app_info true failDetailsClient true t0 deerwalkQuery [] =
      ⟨fetchFailure true errTimeout, [],
       [.searchCall deerwalkQuery, .detailsCall demoEntry.appId]⟩ :=
  (C4_detail_failure_shape true failDetailsClient true t0 deerwalkQuery []
    demoEntry [] rfl).1 errTimeout rfl

/-- **C5**: a request with no JSON body, a body without `app_name`, or an
`app_name` that is empty after stripping is rejected with a 400 validation
error, and no call at all is made to the lookup library. -/
theorem C5_validation_no_lookup (debug : Bool) (client : Client)
    (writeOk : Bool) (now : String) (log : List LogRow) :
    (search_app debug client writeOk now (.ok none) log =
      ⟨{ success := false, error := some errNameRequired, details := none,
         app := none }, 400, log, []⟩) ∧
    (search_app debug client writeOk now (.ok (some none)) log =
      ⟨{ success := false, error := some errNameRequired, details := none,
         app := none }, 400, log, []⟩) ∧
    (∀ raw : String, pyStrip raw = "" →
      search_app debug client writeOk now (.ok (some (some raw))) log =
        ⟨{ success := false, error := some errNameEmpty, details := none,
           app := none }, 400, log, []⟩) := by
  refine ⟨rfl, rfl, ?_⟩
  intro raw h
  simp [search_app, h]

/-- Witness for C5: a whitespace-only `app_name` is rejected with 400 and
the lookup client is never invoked. -/
theorem C5_witness :
    search_app true demoClient true t0 (.ok (some (some blankName))) [] =
      ⟨{ success := false, error := some errNameEmpty, details := none,
         app := none }, 400, [], []⟩ :=
  (C5_validation_no_lookup true demoClient true t0 []).2.2 blankName (by decide)

theorem get_app_info_wellShaped (debug : Bool) (client : Client)
    (writeOk : Bool) (now app_name : String) (log : List LogRow) :
    wellShaped (get_app_info debug client writeOk now app_name log).resp := by
  cases hs : client.search app_name with
  | error e => simp [get_app_info, hs, wellShaped, fetchFailure]
  | ok l =>
    cases l with
    | nil => simp [get_app_info, hs, wellShaped]
    | cons r rest =>
      cases hd : client.fetchDetails r.appId with
      | error e => simp [get_app_info, hs, hd, wellShaped, fetchFailure]
      | ok od =>
        cases od with
        | none => simp [get_app_info, hs, hd, wellShaped]
        | some d => simp [get_app_info, hs, hd, wellShaped]

/-- **C6**: for every client behaviour (including raised exceptions from
either library call) and every request body, both `get_app_info` and the
`/search` route are total and return the uniform shape: a success carrying
an `app` payload, or a failure carrying an error message — never an
uncaught exception. -/
theorem C6_no_uncaught_exception (debug : Bool) (client : Client)
    (writeOk : Bool) (now app_name : String) (req : ReqBody)
    (log : List LogRow) :
    wellShaped (get_app_info debug client writeOk now app_name log).resp ∧
    wellShaped (search_app debug client writeOk now req log).resp := by
  refine ⟨get_app_info_wellShaped debug client writeOk now app_name log, ?_⟩
  cases req with
  | error e => exact Or.inr ⟨rfl, rfl, rfl⟩
  | ok body =>
    cases body with
    | none => exact Or.inr ⟨rfl, rfl, rfl⟩
    | some inner =>
      cases inner with
      | none => exact Or.inr ⟨rfl, rfl, rfl⟩
      | some raw =>
        by_cases h : pyStrip raw = ""
        · simp only [search_app, h, if_pos]
          exact Or.inr ⟨rfl, rfl, rfl⟩
        · simp only [search_app, if_neg h]
          exact get_app_info_wellShaped debug client writeOk now (pyStrip raw) log

/-! ## Logging invariants: C7 and C10 -/

/-- Counterexample to C7 as stated: a lookup whose search returned zero
candidates appends no record at all to the installs log — failed lookups are
not recorded there. -/
theorem C7_counterexample :
    (get_app_info true emptyClient true t0 deerwalkQuery []).log = [] ∧
    (get_app_info true emptyClient true t0 deerwalkQuery []).resp.success =
      false :=
  ⟨rfl, rfl⟩

/-- **C7** (amended): only a fully successful lookup whose CSV write also
succeeds appends to the installs log, and then it appends exactly one
record, carrying the timestamp, the query text and the fetched
installs/score/ratings data; every failed lookup, and any lookup whose CSV
write raises, leaves the log unchanged. -/
theorem C7_one_record_per_success (debug : Bool) (client : Client)
    (now app_name : String) (log : List LogRow) :
    (∀ r rest d, client.search app_name = .ok (r :: rest) →
      client.fetchDetails r.appId = .ok (some d) →
      (get_app_info debug client true now app_name log).log =
        log ++ [{ timestamp := now, app_name := app_name,
                  installs := d.installs, real_installs := d.realInstalls,
                  score := d.score, ratings := d.ratings }]) ∧
    (∀ writeOk,
      (get_app_info debug client writeOk now app_name log).resp.success =
        false →
      (get_app_info debug client writeOk now app_name log).log = log) ∧
    (get_app_info debug client false now app_name log).log = log := by
  refine ⟨?_, ?_, ?_⟩
  · intro r rest d hs hd
    simp [get_app_info, hs, hd, log_installs]
  · intro writeOk h
    cases hs : client.search app_name with
    | error e => simp [get_app_info, hs]
    | ok l =>
      cases l with
      | nil => simp [get_app_info, hs]
      | cons r rest =>
        cases hd : client.fetchDetails r.appId with
        | error e => simp [get_app_info, hs, hd]
        | ok od =>
          cases od with
          | none => simp [get_app_info, hs, hd]
          | some d => simp [get_app_info, hs, hd] at h
  · cases hs : client.search app_name with
    | error e => simp [get_app_info, hs]
    | ok l =>
      cases l with
      | nil => simp [get_app_info, hs]
      | cons r rest =>
        cases hd : client.fetchDetails r.appId with
        | error e => simp [get_app_info, hs, hd]
        | ok od =>
          cases od with
          | none => simp [get_app_info, hs, hd]
          | some d => simp [get_app_info, hs, hd, log_installs]

/-- Witness for C7 (amended): a fully successful lookup appends exactly the
one row carrying timestamp, query and the fetched data. -/
theorem C7_witness :
    (get_app_info true demoClient true t0 deerwalkQuery []).log =
      [{ timestamp := t0, app_name := deerwalkQuery,
         installs := some ("1,000+"), real_installs := some 1234,
         score := some 4, ratings := some 50 }] := by
  have h := (C7_one_record_per_success true demoClient t0 deerwalkQuery []).1
    demoEntry [] demoDetails rfl rfl
  simpa [demoDetails] using h

/-- **C10**: a failing append to the installs CSV is swallowed inside
`log_installs` and never alters the lookup's returned response (nor the
calls made); in particular, a fully successful lookup still returns its
success payload when the write raised — only the log row is lost. -/
theorem C10_log_failure_isolated (debug : Bool) (client : Client)
    (now app_name : String) (log : List LogRow) :
    ((get_app_info debug client false now app_name log).resp =
      (get_app_info debug client true now app_name log).resp) ∧
    ((get_app_info debug client false now app_name log).calls =
      (get_app_info debug client true now app_name log).calls) ∧
    (get_app_info true demoClient false t0 deerwalkQuery []).resp.success =
      true ∧
    (get_app_info true demoClient false t0 deerwalkQuery []).log = [] := by
  refine ⟨?_, ?_, rfl, rfl⟩ <;>
  · cases hs : client.search app_name with
    | error e => simp [get_app_info, hs]
    | ok l =>
      cases l with
      | nil => simp [get_app_info, hs]
      | cons r rest =>
        cases hd : client.fetchDetails r.appId with
        | error e => simp [get_app_info, hs, hd]
        | ok od => cases od <;> simp [get_app_info, hs, hd]

/-! ## Scheduler lemmas, C8 and C9 -/

theorem get_app_info_first_call (debug : Bool) (client : Client)
    (writeOk : Bool) (now app_name : String) (log : List LogRow) :
    (get_app_info debug client writeOk now app_name log).calls.head? =
      some (.searchCall app_name) := by
  cases hs : client.search app_name with
  | error e => simp [get_app_info, hs]
  | ok l =>
    cases l with
    | nil => simp [get_app_info, hs]
    | cons r rest =>
      cases hd : client.fetchDetails r.appId with
      | error e => simp [get_app_info, hs, hd]
      | ok od => cases od <;> simp [get_app_info, hs, hd]

theorem get_app_info_calls_cases (debug : Bool) (client : Client)
    (writeOk : Bool) (now app_name : String) (log : List LogRow) :
    (get_app_info debug client writeOk now app_name log).calls =
      [.searchCall app_name] ∨
    ∃ id, (get_app_info debug client writeOk now app_name log).calls =
      [.searchCall app_name, .detailsCall id] := by
  cases hs : client.search app_name with
  | error e => left; simp [get_app_info, hs]
  | ok l =>
    cases l with
    | nil => left; simp [get_app_info, hs]
    | cons r rest =>
      cases hd : client.fetchDetails r.appId with
      | error e => right; exact ⟨r.appId, by simp [get_app_info, hs, hd]⟩
      | ok od =>
        cases od with
        | none => right; exact ⟨r.appId, by simp [get_app_info, hs, hd]⟩
        | some d => right; exact ⟨r.appId, by simp [get_app_info, hs, hd]⟩

theorem scheduled_search_calls_eq (debug : Bool) (client : Client)
    (writeOk : Bool) (now nextRun : String) (log : List LogRow) :
    (scheduled_search debug client writeOk now nextRun log).calls =
      (get_app_info debug client writeOk now deerwalkQuery log).calls := by
  cases h : (get_app_info debug client writeOk now deerwalkQuery log).resp.success <;>
    simp [scheduled_search, h]

/-- Counterexample to C8 as stated: the registered job's trigger is not a
cron-style fixed-times-of-day trigger. -/
theorem C8_counterexample :
    deerwalk_search_job.trigger.isCronStyle = false :=
  rfl

/-- **C8** (amended): the scheduled job fires on an interval trigger of two
hours — `IntervalTrigger(hours=2)`, not cron-style fixed wall-clock times —
and each firing invokes the lookup for the one fixed query `Deerwalk`. -/
theorem C8_interval_not_cron :
    deerwalk_search_job.trigger = Trigger.intervalTrigger 2 ∧
    deerwalk_search_job.jobId = "deerwalk_search" ∧
    ∀ (debug : Bool) (client : Client) (writeOk : Bool)
      (now nextRun : String) (log : List LogRow),
      (scheduled_search debug client writeOk now nextRun log).calls.head? =
        some (.searchCall deerwalkQuery) := by
  refine ⟨rfl, rfl, ?_⟩
  intro debug client writeOk now nextRun log
  rw [scheduled_search_calls_eq]
  exact get_app_info_first_call debug client writeOk now deerwalkQuery log

/-- **C9**: for every client behaviour and every outcome — success, lookup
error, or raised exception — one firing of the scheduled job ends back in
`Idle`, its `finally` block logs the next run time as the last message, and
the lookup is invoked exactly once (no retry within the firing, no crash). -/
theorem C9_firing_always_idle (debug : Bool) (client : Client)
    (writeOk : Bool) (now nextRun : String) (log : List LogRow) :
    (scheduled_search debug client writeOk now nextRun log).state =
      JobState.Idle ∧
    (scheduled_search debug client writeOk now nextRun log).messages.getLast? =
      some (msgNextRun ++ nextRun) ∧
    ((scheduled_search debug client writeOk now nextRun log).calls.countP
      Call.isSearch) = 1 := by
  refine ⟨?_, ?_, ?_⟩
  · cases h : (get_app_info debug client writeOk now deerwalkQuery log).resp.success <;>
      simp [scheduled_search, h]
  · cases h : (get_app_info debug client writeOk now deerwalkQuery log).resp.success <;>
      simp [scheduled_search, h]
  · rw [scheduled_search_calls_eq]
    rcases get_app_info_calls_cases debug client writeOk now deerwalkQuery log
      with h | ⟨id, h⟩ <;>
      simp [h, List.countP_cons, List.countP_nil, Call.isSearch]

end Deerlog
